import Mathlib

/-!
Shallow embedding of the creqit Facebook Lead Ads integration
(`creqit/meta/FacebookLeadAds/webhook.py` and the two doctype controllers
`facebook_lead_ads_settings.py` and `facebook_lead_ads_webhook.py`),
together with theorems settling the specification claims about it.

JSON payloads are modelled by an inductive `Json` type; the framework's
document store is modelled as an explicit `DB` state; calls to external
collaborators that may raise (document insert, realtime publish, the Graph
API, document save) are modelled by environment records whose fields say
which call raises, so that the handlers' try/except structure can be
expressed as explicit state passing.
-/

namespace FacebookLeadAds

/-- JSON values as delivered by the platform: objects keep their fields as
an association list, matching a parsed Python dict. -/
inductive Json where
  | null
  | bool (b : Bool)
  | num (n : Int)
  | str (s : String)
  | arr (items : List Json)
  | obj (fields : List (String × Json))
deriving Repr

mutual

def Json.beq : Json → Json → Bool
  | .null, .null => true
  | .bool a, .bool b => a == b
  | .num a, .num b => a == b
  | .str a, .str b => a == b
  | .arr a, .arr b => Json.beqList a b
  | .obj a, .obj b => Json.beqFields a b
  | _, _ => false

def Json.beqList : List Json → List Json → Bool
  | [], [] => true
  | a :: as, b :: bs => Json.beq a b && Json.beqList as bs
  | _, _ => false

def Json.beqFields : List (String × Json) → List (String × Json) → Bool
  | [], [] => true
  | (k, v) :: as, (l, w) :: bs => k == l && Json.beq v w && Json.beqFields as bs
  | _, _ => false

end

mutual

theorem Json.beq_iff : ∀ a b : Json, Json.beq a b = true ↔ a = b
  | .null, .null => by simp [Json.beq]
  | .bool _, .bool _ => by simp [Json.beq]
  | .num _, .num _ => by simp [Json.beq]
  | .str _, .str _ => by simp [Json.beq]
  | .arr a, .arr b => by simp [Json.beq, Json.beqList_iff a b]
  | .obj a, .obj b => by simp [Json.beq, Json.beqFields_iff a b]
  | .null, .bool _ | .null, .num _ | .null, .str _ | .null, .arr _ | .null, .obj _
  | .bool _, .null | .bool _, .num _ | .bool _, .str _ | .bool _, .arr _ | .bool _, .obj _
  | .num _, .null | .num _, .bool _ | .num _, .str _ | .num _, .arr _ | .num _, .obj _
  | .str _, .null | .str _, .bool _ | .str _, .num _ | .str _, .arr _ | .str _, .obj _
  | .arr _, .null | .arr _, .bool _ | .arr _, .num _ | .arr _, .str _ | .arr _, .obj _
  | .obj _, .null | .obj _, .bool _ | .obj _, .num _ | .obj _, .str _ | .obj _, .arr _ => by
      simp [Json.beq]

theorem Json.beqList_iff : ∀ a b : List Json, Json.beqList a b = true ↔ a = b
  | [], [] => by simp [Json.beqList]
  | a :: as, b :: bs => by
      simp [Json.beqList, Json.beq_iff a b, Json.beqList_iff as bs]
  | [], _ :: _ | _ :: _, [] => by simp [Json.beqList]

theorem Json.beqFields_iff : ∀ a b : List (String × Json), Json.beqFields a b = true ↔ a = b
  | [], [] => by simp [Json.beqFields]
  | (k, v) :: as, (l, w) :: bs => by
      simp [Json.beqFields, Json.beq_iff v w, Json.beqFields_iff as bs, and_assoc]
  | [], _ :: _ | _ :: _, [] => by simp [Json.beqFields]

end

instance : DecidableEq Json := fun a b => decidable_of_iff _ (Json.beq_iff a b)

/-- Python `payload.get(key)` on a parsed JSON object (None on a non-dict). -/
def Json.get : Json → String → Option Json
  | .obj fs, k => fs.lookup k
  | _, _ => none

/-- Python truthiness of a parsed JSON value, as tested by `if not payload`. -/
def Json.isFalsy : Json → Bool
  | .null => true
  | .bool b => !b
  | .num n => n == 0
  | .str s => s == ""
  | .arr xs => xs.isEmpty
  | .obj fs => fs.isEmpty

/-- Python `str()` of an optional JSON value, as interpolated into the
`lead_id` f-string; container rendering is abbreviated, which no claim
exercises. -/
def pyStr : Option Json → String
  | none => "None"
  | some .null => "None"
  | some (.bool true) => "True"
  | some (.bool false) => "False"
  | some (.num n) => toString n
  | some (.str s) => s
  | some (.arr _) => "<list>"
  | some (.obj _) => "<dict>"

/-- Python `str()` of an optional string query parameter. -/
def optStr : Option String → String
  | none => "None"
  | some s => s

/-- The `Facebook Lead Ads Settings` singleton
(`facebook_lead_ads_settings.py` plus the fields `handle_verification`
reads). Python falsy string fields are modelled by the empty string;
`webhook_verify_token` keeps `Option` because `handle_verification`
compares it against a possibly absent query parameter. -/
structure Settings where
  enabled : Bool
  app_id : String
  app_secret : String
  webhook_verify_token : Option String
  webhook_is_active : Bool
deriving DecidableEq, Repr

/-- Outcome of the GET verification handler: either the bare challenge
echoed as a plain-text 200 `Response`, or an error page rendered via
`respond_as_web_page` with `success=False`. -/
inductive VerifyResponse where
  | challenge (c : Option String)
  | errorPage (title msg : String)
deriving DecidableEq, Repr

/-- Embeds `handle_verification` from `webhook.py`: reads `hub.mode`,
`hub.verify_token`, `hub.challenge`; checks the enabled flag, then exact
token equality, then the mode; on the subscribe path marks
`webhook_is_active` and persists before echoing the challenge. Returns the
updated settings state together with the response. -/
def handle_verification (settings : Settings) (mode token challenge : Option String) :
    Settings × VerifyResponse :=
  if !settings.enabled then
    (settings, .errorPage "Facebook Webhook Error" "Facebook Lead Ads is not enabled")
  else if settings.webhook_verify_token ≠ token then
    (settings, .errorPage "Facebook Webhook Error"
      ("Invalid verify token. Expected: " ++ optStr settings.webhook_verify_token ++
        ", Received: " ++ optStr token))
  else if mode = some "subscribe" then
    ({ settings with webhook_is_active := true }, .challenge challenge)
  else
    (settings, .errorPage "Facebook Webhook Error" "Invalid mode")

/-- Embeds `FacebookLeadAdsSettings.validate`: `some msg` models `creqit.throw`
aborting the save, `none` a validation pass. -/
def FacebookLeadAdsSettings.validate (s : Settings) : Option String :=
  if s.enabled then
    if s.app_id = "" then some "App ID is required when Facebook Lead Ads is enabled"
    else if s.app_secret = "" then some "App Secret is required when Facebook Lead Ads is enabled"
    else none
  else none

/-- One persisted `Facebook Lead` document, with the fields
`create_facebook_lead` fills in. -/
structure LeadRecord where
  lead_id : String
  status : String
  facebook_lead_id : Option Json
  facebook_form_id : Option Json
  facebook_page_id : Option Json
  facebook_ad_id : Option Json
  facebook_adset_id : Option Json
  lead_data : Json
  created_at : String
deriving DecidableEq, Repr

/-- The slice of the document store the ingestion path touches: whether
the `Facebook Lead` DocType is installed, and the stored lead documents. -/
structure DB where
  lead_doctype_installed : Bool
  leads : List LeadRecord
deriving DecidableEq, Repr

/-- Failure environment for one POST invocation: which leadgen IDs make
`lead_doc.insert` raise (that exception is caught inside
`create_facebook_lead`) and which make `creqit.publish_realtime` raise
(that exception escapes the entry/change loop). -/
structure Env where
  insert_raises : Option Json → Bool
  publish_raises : Option Json → Bool

/-- The failure-free environment of a normal run. -/
def Env.ok : Env := ⟨fun _ => false, fun _ => false⟩

/-- Embeds `creqit.db.exists("Facebook Lead", facebook_lead_id=leadgen_id)`. -/
def leadExists (db : DB) (lid : Option Json) : Bool :=
  db.leads.any fun r => decide (r.facebook_lead_id = lid)

/-- Number of stored leads carrying a given external lead ID. -/
def countLeads (db : DB) (lid : Option Json) : Nat :=
  (db.leads.filter fun r => decide (r.facebook_lead_id = lid)).length

/-- The document dict `create_facebook_lead` builds for `creqit.get_doc`. -/
def mkLeadRecord (now : String) (lid pid fid : Option Json) (v : Json) : LeadRecord :=
  { lead_id := "FB-" ++ pyStr lid
    status := "New"
    facebook_lead_id := lid
    facebook_form_id := fid
    facebook_page_id := pid
    facebook_ad_id := v.get "ad_id"
    facebook_adset_id := v.get "adset_id"
    lead_data := v
    created_at := now }

/-- Embeds `create_facebook_lead` from `webhook.py`: skip when the DocType is
missing, skip when a lead with this ID already exists, and swallow an
insert failure; otherwise persist the new document. The whole body sits
inside try/except, so this function never raises. -/
def create_facebook_lead (env : Env) (now : String) (lid pid fid : Option Json)
    (v : Json) (db : DB) : DB :=
  if !db.lead_doctype_installed then db
  else if leadExists db lid then db
  else if env.insert_raises lid then db
  else { db with leads := db.leads ++ [mkLeadRecord now lid pid fid v] }

/-- One `facebook_lead_received` event published by `process_entry`. -/
structure RealtimeEvent where
  event : String
  leadgen_id : Option Json
  page_id : Option Json
  form_id : Option Json
  timestamp : String
  user : String
deriving DecidableEq, Repr

/-- The realtime message `process_entry` publishes for one change. -/
def mkEvent (now user : String) (lid pid fid : Option Json) : RealtimeEvent :=
  { event := "facebook_lead_received"
    leadgen_id := lid
    page_id := pid
    form_id := fid
    timestamp := now
    user := user }

/-- Embeds `change.get("field") == "leadgen"`. -/
def isLeadgenChange (c : Json) : Bool :=
  decide (c.get "field" = some (Json.str "leadgen"))

/-- Embeds `change.get("value")` with the empty dict as default. -/
def changeValue (c : Json) : Json := (c.get "value").getD (.obj [])

/-- The change loop of `process_entry`: non-leadgen changes are skipped;
a leadgen change creates the lead (never raising) and then publishes the
realtime event; a publish exception aborts the rest of the list. The
result is the updated store, the events published so far, and the escaped
exception message if any. -/
def processChanges (env : Env) (now user : String) :
    List Json → DB → DB × List RealtimeEvent × Option String
  | [], db => (db, [], none)
  | c :: cs, db =>
    if !isLeadgenChange c then processChanges env now user cs db
    else
      let v := changeValue c
      let pid := v.get "page_id"
      let fid := v.get "form_id"
      let lid := v.get "leadgen_id"
      let db1 := create_facebook_lead env now lid pid fid v db
      if env.publish_raises lid then (db1, [], some "publish_realtime failed")
      else
        let rest := processChanges env now user cs db1
        (rest.1, mkEvent now user lid pid fid :: rest.2.1, rest.2.2)

/-- Embeds `entry.get("changes", [])`. -/
def entryChanges (e : Json) : List Json :=
  match e.get "changes" with
  | some (.arr xs) => xs
  | _ => []

/-- Embeds `process_entry` from `webhook.py`. -/
def process_entry (env : Env) (now user : String) (e : Json) (db : DB) :
    DB × List RealtimeEvent × Option String :=
  processChanges env now user (entryChanges e) db

/-- The entry loop of `handle_lead_event`: an exception escaping one entry
aborts the remaining entries. -/
def processEntries (env : Env) (now user : String) :
    List Json → DB → DB × List RealtimeEvent × Option String
  | [], db => (db, [], none)
  | e :: es, db =>
    let r := process_entry env now user e db
    match r.2.2 with
    | some m => (r.1, r.2.1, some m)
    | none =>
      let rest := processEntries env now user es r.1
      (rest.1, r.2.1 ++ rest.2.1, rest.2.2)

/-- Embeds `payload.get("entry", [])`. -/
def payloadEntries (p : Json) : List Json :=
  match p.get "entry" with
  | some (.arr xs) => xs
  | _ => []

/-- Response of the POST handler: 200 `success: true`, 400 error envelope,
or 500 with the exception message. -/
inductive LeadResponse where
  | ok
  | badRequest (msg : String)
  | serverError (msg : String)
deriving DecidableEq, Repr

/-- Embeds `handle_lead_event` from `webhook.py`. The body as returned by
`get_json` is `Option Json` (`none` for a missing or unparseable body);
a falsy payload is rejected with 400, a non-page object is acknowledged
with 200 without touching the entries, and otherwise the entry loop runs,
its escaped exception (if any) surfacing as a 500. -/
def handle_lead_event (env : Env) (now user : String) (payload : Option Json)
    (db : DB) : DB × List RealtimeEvent × LeadResponse :=
  match payload with
  | none => (db, [], .badRequest "Invalid payload")
  | some p =>
    if p.isFalsy then (db, [], .badRequest "Invalid payload")
    else if p.get "object" ≠ some (Json.str "page") then (db, [], .ok)
    else
      let r := processEntries env now user (payloadEntries p) db
      match r.2.2 with
      | none => (r.1, r.2.1, .ok)
      | some m => (r.1, r.2.1, .serverError m)

/-- The values of the leadgen changes of a change list, in order. -/
def lgVals (cs : List Json) : List Json :=
  cs.filterMap fun c => if isLeadgenChange c then some (changeValue c) else none

/-- The values of the leadgen changes of a page payload, in delivery
order: what the nested loops of `handle_lead_event` iterate over. -/
def leadgenValues (p : Json) : List Json :=
  (payloadEntries p).flatMap fun e => lgVals (entryChanges e)

/-- The external lead ID of one leadgen change value. -/
def lidOf (v : Json) : Option Json := v.get "leadgen_id"

/-- The lead record the ingestion path stores for one change value. -/
def recOf (now : String) (v : Json) : LeadRecord :=
  mkLeadRecord now (lidOf v) (v.get "page_id") (v.get "form_id") v

/-- The realtime event the ingestion path publishes for one change value. -/
def evOf (now user : String) (v : Json) : RealtimeEvent :=
  mkEvent now user (lidOf v) (v.get "page_id") (v.get "form_id")

/-- A leadgen change dict with the given value, as Facebook delivers it. -/
def leadgenChange (v : Json) : Json :=
  .obj [("field", .str "leadgen"), ("value", v)]

/-- A webhook entry holding a single leadgen change. -/
def leadgenEntry (v : Json) : Json :=
  .obj [("id", .str "entry-1"), ("changes", .arr [leadgenChange v])]

/-- A page payload delivering a single leadgen change with value `v`. -/
def singleLeadPayload (v : Json) : Json :=
  .obj [("object", .str "page"), ("entry", .arr [leadgenEntry v])]

/-- C1: for a GET verification request carrying all three query
parameters, the response is the literal challenge as a plain-text 200
exactly when the integration is enabled, the token equals the stored
`webhook_verify_token`, and the mode is `"subscribe"`; every other case
renders an error page and never echoes the challenge. -/
theorem handle_verification_challenge_iff (settings : Settings)
    (mode token challenge : String) :
    (handle_verification settings (some mode) (some token) (some challenge)).2 =
        VerifyResponse.challenge (some challenge) ↔
      settings.enabled = true ∧ settings.webhook_verify_token = some token ∧
        mode = "subscribe" := by
  unfold handle_verification
  rcases h : settings.enabled with _ | _ <;> simp [h]
  by_cases htok : settings.webhook_verify_token = some token <;> simp [htok]
  by_cases hmode : mode = "subscribe" <;> simp [hmode]

/-- C9: saving the settings with the enabled flag set throws exactly when
the app ID or the app secret is empty; with the flag unset validation
never throws. -/
theorem settings_validate_iff (s : Settings) :
    FacebookLeadAdsSettings.validate s ≠ none ↔
      s.enabled = true ∧ (s.app_id = "" ∨ s.app_secret = "") := by
  unfold FacebookLeadAdsSettings.validate
  rcases h : s.enabled with _ | _ <;> simp [h]
  by_cases ha : s.app_id = "" <;> by_cases hb : s.app_secret = "" <;> simp [ha, hb]

lemma leadExists_iff (db : DB) (lid : Option Json) :
    leadExists db lid = true ↔ ∃ r ∈ db.leads, r.facebook_lead_id = lid := by
  simp [leadExists, List.any_eq_true]

lemma countLeads_eq_zero (db : DB) (lid : Option Json) :
    countLeads db lid = 0 ↔ leadExists db lid = false := by
  simp only [countLeads, leadExists, List.length_eq_zero, List.filter_eq_nil_iff,
    List.any_eq_false, decide_eq_true_eq]

/-- C3: a missing or unparseable POST body (in particular the body
`null`) is rejected with a 400 response carrying the `Invalid payload`
error envelope, with no store change and no event. -/
theorem handle_lead_event_invalid_payload (env : Env) (now user : String)
    (payload : Option Json) (db : DB)
    (h : payload = none ∨ ∃ p, payload = some p ∧ p.isFalsy = true) :
    handle_lead_event env now user payload db =
      (db, [], LeadResponse.badRequest "Invalid payload") := by
  rcases h with h | ⟨p, rfl, hp⟩
  · subst h; rfl
  · simp [handle_lead_event, hp]

/-- Witness for C3 at the body `null` and an empty store. -/
theorem handle_lead_event_invalid_payload_witness :
    ((some Json.null = none ∨ ∃ p, some Json.null = some p ∧ p.isFalsy = true) ∧
      handle_lead_event Env.ok "2025-01-01 00:00:00" "Guest" (some Json.null)
          ⟨true, []⟩ =
        (⟨true, []⟩, [], LeadResponse.badRequest "Invalid payload")) :=
  ⟨Or.inr ⟨Json.null, rfl, rfl⟩,
    handle_lead_event_invalid_payload Env.ok "2025-01-01 00:00:00" "Guest"
      (some Json.null) ⟨true, []⟩ (Or.inr ⟨Json.null, rfl, rfl⟩)⟩

/-- C5: a parseable, truthy payload whose object field is not `"page"`
is acknowledged with 200 `success`; the store is untouched, no event is
published, and the entry list is never iterated. -/
theorem handle_lead_event_nonpage (env : Env) (now user : String) (p : Json)
    (db : DB) (htruthy : p.isFalsy = false)
    (hne : p.get "object" ≠ some (Json.str "page")) :
    handle_lead_event env now user (some p) db = (db, [], LeadResponse.ok) := by
  simp [handle_lead_event, htruthy, hne]

/-- Witness for C5 at an `instagram` payload. -/
theorem handle_lead_event_nonpage_witness :
    ((Json.obj [("object", Json.str "instagram")]).isFalsy = false ∧
      (Json.obj [("object", Json.str "instagram")]).get "object" ≠
        some (Json.str "page") ∧
      handle_lead_event Env.ok "2025-01-01 00:00:00" "Guest"
          (some (Json.obj [("object", Json.str "instagram")])) ⟨true, []⟩ =
        (⟨true, []⟩, [], LeadResponse.ok)) :=
  ⟨rfl, by decide,
    handle_lead_event_nonpage Env.ok "2025-01-01 00:00:00" "Guest"
      (Json.obj [("object", Json.str "instagram")]) ⟨true, []⟩ rfl (by decide)⟩

lemma handle_lead_event_single_ok (now user : String) (v : Json) (db : DB) :
    handle_lead_event Env.ok now user (some (singleLeadPayload v)) db =
      (create_facebook_lead Env.ok now (lidOf v) (v.get "page_id") (v.get "form_id") v db,
        [evOf now user v], LeadResponse.ok) := rfl

/-- C2: delivering two page payloads that both carry a leadgen change
with the same `leadgen_id` persists exactly one lead record: the second
delivery finds the record the first one created and changes nothing. -/
theorem ingestion_idempotent (now1 now2 u1 u2 : String) (v1 v2 : Json) (db : DB)
    (hsame : lidOf v2 = lidOf v1)
    (hdt : db.lead_doctype_installed = true)
    (h0 : countLeads db (lidOf v1) = 0) :
    countLeads (handle_lead_event Env.ok now1 u1 (some (singleLeadPayload v1)) db).1
        (lidOf v1) = 1 ∧
      (handle_lead_event Env.ok now2 u2 (some (singleLeadPayload v2))
          (handle_lead_event Env.ok now1 u1 (some (singleLeadPayload v1)) db).1).1 =
        (handle_lead_event Env.ok now1 u1 (some (singleLeadPayload v1)) db).1 := by
  rw [handle_lead_event_single_ok, handle_lead_event_single_ok]
  have hex : leadExists db (lidOf v1) = false := (countLeads_eq_zero db _).mp h0
  have hcreate : create_facebook_lead Env.ok now1 (lidOf v1) (v1.get "page_id")
      (v1.get "form_id") v1 db =
      { db with leads := db.leads ++ [mkLeadRecord now1 (lidOf v1)
          (v1.get "page_id") (v1.get "form_id") v1] } := by
    simp [create_facebook_lead, hdt, hex, Env.ok]
  rw [hcreate]
  constructor
  · have h0' : (db.leads.filter fun r => decide (r.facebook_lead_id = lidOf v1)).length = 0 :=
      h0
    simp [countLeads, List.filter_append, mkLeadRecord, h0']
  · have hex2 : leadExists { db with leads := db.leads ++ [mkLeadRecord now1 (lidOf v1)
        (v1.get "page_id") (v1.get "form_id") v1] } (lidOf v2) = true := by
      rw [leadExists_iff]
      exact ⟨mkLeadRecord now1 (lidOf v1) (v1.get "page_id") (v1.get "form_id") v1,
        by simp, by simp [mkLeadRecord, hsame]⟩
    simp [create_facebook_lead, hex2]

/-- Witness for C2 at a concrete lead value and the empty store. -/
theorem ingestion_idempotent_witness :
    (lidOf (Json.obj [("leadgen_id", Json.str "L1")]) =
        lidOf (Json.obj [("leadgen_id", Json.str "L1")]) ∧
      (⟨true, []⟩ : DB).lead_doctype_installed = true ∧
      countLeads ⟨true, []⟩ (lidOf (Json.obj [("leadgen_id", Json.str "L1")])) = 0 ∧
      (countLeads (handle_lead_event Env.ok "t1" "u1"
            (some (singleLeadPayload (Json.obj [("leadgen_id", Json.str "L1")])))
            ⟨true, []⟩).1
          (lidOf (Json.obj [("leadgen_id", Json.str "L1")])) = 1 ∧
        (handle_lead_event Env.ok "t2" "u2"
            (some (singleLeadPayload (Json.obj [("leadgen_id", Json.str "L1")])))
            (handle_lead_event Env.ok "t1" "u1"
              (some (singleLeadPayload (Json.obj [("leadgen_id", Json.str "L1")])))
              ⟨true, []⟩).1).1 =
          (handle_lead_event Env.ok "t1" "u1"
            (some (singleLeadPayload (Json.obj [("leadgen_id", Json.str "L1")])))
            ⟨true, []⟩).1)) :=
  ⟨rfl, rfl, rfl,
    ingestion_idempotent "t1" "t2" "u1" "u2"
      (Json.obj [("leadgen_id", Json.str "L1")])
      (Json.obj [("leadgen_id", Json.str "L1")]) ⟨true, []⟩ rfl rfl rfl⟩

lemma isFalsy_false_of_get (p : Json) (k : String) (j : Json)
    (h : p.get k = some j) : p.isFalsy = false := by
  cases p with
  | null => simp [Json.get] at h
  | bool b => simp [Json.get] at h
  | num n => simp [Json.get] at h
  | str s => simp [Json.get] at h
  | arr xs => simp [Json.get] at h
  | obj fs =>
      cases fs with
      | nil => simp [Json.get, List.lookup] at h
      | cons a as => rfl

lemma lgVals_cons_skip (c : Json) (cs : List Json) (hc : isLeadgenChange c = false) :
    lgVals (c :: cs) = lgVals cs := by
  simp [lgVals, hc]

lemma lgVals_cons_lead (c : Json) (cs : List Json) (hc : isLeadgenChange c = true) :
    lgVals (c :: cs) = changeValue c :: lgVals cs := by
  simp [lgVals, hc]

lemma leadExists_append (b : Bool) (l1 l2 : List LeadRecord) (lid : Option Json) :
    leadExists ⟨b, l1 ++ l2⟩ lid = (leadExists ⟨b, l1⟩ lid || leadExists ⟨b, l2⟩ lid) := by
  simp [leadExists, List.any_append]

lemma leadExists_eq_false_iff (db : DB) (x : Option Json) :
    leadExists db x = false ↔ ∀ r ∈ db.leads, r.facebook_lead_id ≠ x := by
  simp [leadExists, List.any_eq_false]

/-- A failure-free run of the change loop on fresh, pairwise-distinct
leadgen IDs appends one new record and publishes one event per leadgen
change, in order. -/
lemma processChanges_all_new (now user : String) (cs : List Json) :
    ∀ db : DB, db.lead_doctype_installed = true →
      ((lgVals cs).map lidOf).Nodup →
      (∀ v ∈ lgVals cs, leadExists db (lidOf v) = false) →
      processChanges Env.ok now user cs db =
        ({ db with leads := db.leads ++ (lgVals cs).map (recOf now) },
          (lgVals cs).map (evOf now user), none) := by
  induction cs with
  | nil => intro db hdt _ _; simp [processChanges, lgVals]
  | cons c cs ih =>
    intro db hdt hnodup hfresh
    rcases hc : isLeadgenChange c with _ | _
    · rw [lgVals_cons_skip c cs hc] at hnodup hfresh ⊢
      simpa [processChanges, hc] using ih db hdt hnodup hfresh
    · rw [lgVals_cons_lead c cs hc] at hnodup hfresh ⊢
      rw [List.map_cons, List.nodup_cons] at hnodup
      obtain ⟨hni, hnodup'⟩ := hnodup
      have hex : leadExists db (lidOf (changeValue c)) = false := hfresh _ (by simp)
      have hcr : create_facebook_lead Env.ok now ((changeValue c).get "leadgen_id")
          ((changeValue c).get "page_id") ((changeValue c).get "form_id")
          (changeValue c) db =
          { db with leads := db.leads ++ [recOf now (changeValue c)] } := by
        simp only [lidOf] at hex
        simp [create_facebook_lead, hdt, hex, Env.ok, recOf, lidOf]
      have hfresh' : ∀ v ∈ lgVals cs,
          leadExists { db with leads := db.leads ++ [recOf now (changeValue c)] }
            (lidOf v) = false := by
        intro v hv
        have h1 : leadExists db (lidOf v) = false := hfresh v (by simp [hv])
        have h2 : lidOf (changeValue c) ≠ lidOf v := by
          intro hcontra
          apply hni
          rw [hcontra]
          exact List.mem_map_of_mem lidOf hv
        rw [leadExists_eq_false_iff]
        intro r hr
        rcases List.mem_append.mp hr with hr1 | hr1
        · exact (leadExists_eq_false_iff db _).mp h1 r hr1
        · rw [List.mem_singleton.mp hr1]
          exact h2
      have ihr := ih { db with leads := db.leads ++ [recOf now (changeValue c)] }
        (by simpa using hdt) hnodup' hfresh'
      have hpub : Env.ok.publish_raises ((changeValue c).get "leadgen_id") = false := rfl
      simp only [processChanges, hc, Bool.not_true, Bool.false_eq_true, if_false,
        ite_false]
      rw [hcr]
      simp only [hpub, Bool.false_eq_true, if_false, ite_false]
      rw [ihr]
      simp [evOf, mkEvent, lidOf]

/-- A failure-free run of the entry loop on fresh, pairwise-distinct
leadgen IDs appends one new record and publishes one event per leadgen
change across all entries, in delivery order. -/
lemma processEntries_all_new (now user : String) (es : List Json) :
    ∀ db : DB, db.lead_doctype_installed = true →
      ((es.flatMap fun e => lgVals (entryChanges e)).map lidOf).Nodup →
      (∀ v ∈ es.flatMap fun e => lgVals (entryChanges e),
        leadExists db (lidOf v) = false) →
      processEntries Env.ok now user es db =
        ({ db with leads := db.leads ++
            ((es.flatMap fun e => lgVals (entryChanges e)).map (recOf now)) },
          (es.flatMap fun e => lgVals (entryChanges e)).map (evOf now user), none) := by
  induction es with
  | nil => intro db hdt _ _; simp [processEntries]
  | cons e es ih =>
    intro db hdt hnodup hfresh
    rw [List.flatMap_cons] at hnodup hfresh ⊢
    rw [List.map_append, List.nodup_append] at hnodup
    obtain ⟨hn1, hn2, hdisj⟩ := hnodup
    have hfresh1 : ∀ v ∈ lgVals (entryChanges e), leadExists db (lidOf v) = false :=
      fun v hv => hfresh v (List.mem_append_left _ hv)
    have hpe := processChanges_all_new now user (entryChanges e) db hdt hn1 hfresh1
    have hfresh2 : ∀ v ∈ es.flatMap (fun e => lgVals (entryChanges e)),
        leadExists { db with leads := db.leads ++
          (lgVals (entryChanges e)).map (recOf now) } (lidOf v) = false := by
      intro v hv
      rw [leadExists_eq_false_iff]
      intro r hr
      rcases List.mem_append.mp hr with hr1 | hr1
      · exact (leadExists_eq_false_iff db _).mp
          (hfresh v (List.mem_append_right _ hv)) r hr1
      · obtain ⟨w, hw, rfl⟩ := List.mem_map.mp hr1
        intro hcontra
        have hcontra' : lidOf w = lidOf v := hcontra
        exact hdisj (List.mem_map_of_mem lidOf hw)
          (by rw [hcontra']; exact List.mem_map_of_mem lidOf hv)
    have ihr := ih { db with leads := db.leads ++
        (lgVals (entryChanges e)).map (recOf now) } (by simpa using hdt) hn2 hfresh2
    simp only [processEntries, process_entry]
    rw [hpe]
    simp only [ihr]
    simp [List.append_assoc]

/-- C4: a page payload with N fresh, pairwise-distinct leadgen changes
creates exactly N records with status `"New"` and publishes exactly N
events, each carrying its change's page, form and leadgen IDs plus the
timestamp, scoped to the session user. -/
theorem handle_lead_event_batch_creates (now user : String) (p : Json) (db : DB)
    (hobj : p.get "object" = some (Json.str "page"))
    (hdt : db.lead_doctype_installed = true)
    (hnodup : ((leadgenValues p).map lidOf).Nodup)
    (hfresh : ∀ v ∈ leadgenValues p, leadExists db (lidOf v) = false) :
    handle_lead_event Env.ok now user (some p) db =
      ({ db with leads := db.leads ++ (leadgenValues p).map (recOf now) },
        (leadgenValues p).map (evOf now user), LeadResponse.ok) ∧
      ((leadgenValues p).map (recOf now)).length = (leadgenValues p).length ∧
      ∀ r ∈ (leadgenValues p).map (recOf now), r.status = "New" := by
  have hfal := isFalsy_false_of_get p "object" _ hobj
  have hpe := processEntries_all_new now user (payloadEntries p) db hdt
    (by simpa [leadgenValues] using hnodup) (by simpa [leadgenValues] using hfresh)
  refine ⟨?_, by simp, ?_⟩
  · simp [handle_lead_event, hfal, hobj, hpe, leadgenValues]
  · intro r hr
    obtain ⟨v, hv, rfl⟩ := List.mem_map.mp hr
    rfl

/-- A fixed leadgen change value used by concrete witnesses. -/
def sampleLead1 : Json :=
  Json.obj [("leadgen_id", Json.str "L1"), ("page_id", Json.str "P1"),
    ("form_id", Json.str "F1")]

/-- A second fixed leadgen change value with a distinct lead ID. -/
def sampleLead2 : Json :=
  Json.obj [("leadgen_id", Json.str "L2"), ("page_id", Json.str "P1"),
    ("form_id", Json.str "F1")]

/-- A page payload delivering both sample leads in one entry. -/
def samplePagePayload : Json :=
  Json.obj [("object", Json.str "page"),
    ("entry", Json.arr [Json.obj [("id", Json.str "E1"),
      ("changes", Json.arr [leadgenChange sampleLead1, leadgenChange sampleLead2])]])]

/-- Witness for C4 at the two-lead sample payload and the empty store. -/
theorem handle_lead_event_batch_creates_witness :
    (samplePagePayload.get "object" = some (Json.str "page") ∧
      (⟨true, []⟩ : DB).lead_doctype_installed = true ∧
      ((leadgenValues samplePagePayload).map lidOf).Nodup ∧
      (∀ v ∈ leadgenValues samplePagePayload,
        leadExists ⟨true, []⟩ (lidOf v) = false) ∧
      (handle_lead_event Env.ok "2025-01-01 00:00:00" "Administrator"
          (some samplePagePayload) ⟨true, []⟩ =
        ({ (⟨true, []⟩ : DB) with leads := (⟨true, []⟩ : DB).leads ++
            (leadgenValues samplePagePayload).map (recOf "2025-01-01 00:00:00") },
          (leadgenValues samplePagePayload).map
            (evOf "2025-01-01 00:00:00" "Administrator"), LeadResponse.ok) ∧
        ((leadgenValues samplePagePayload).map (recOf "2025-01-01 00:00:00")).length =
          (leadgenValues samplePagePayload).length ∧
        ∀ r ∈ (leadgenValues samplePagePayload).map (recOf "2025-01-01 00:00:00"),
          r.status = "New")) :=
  ⟨by decide, rfl, by decide, by decide,
    handle_lead_event_batch_creates "2025-01-01 00:00:00" "Administrator"
      samplePagePayload ⟨true, []⟩ (by decide) rfl (by decide) (by decide)⟩

lemma create_facebook_lead_noop_doctype (env : Env) (now : String)
    (lid pid fid : Option Json) (v : Json) (db : DB)
    (h : db.lead_doctype_installed = false) :
    create_facebook_lead env now lid pid fid v db = db := by
  simp [create_facebook_lead, h]

/-- With the `Facebook Lead` DocType missing, the change loop stores
nothing but still publishes every leadgen event. -/
lemma processChanges_doctype_missing (now user : String) (cs : List Json) :
    ∀ db : DB, db.lead_doctype_installed = false →
      processChanges Env.ok now user cs db =
        (db, (lgVals cs).map (evOf now user), none) := by
  induction cs with
  | nil => intro db _; simp [processChanges, lgVals]
  | cons c cs ih =>
    intro db h
    rcases hc : isLeadgenChange c with _ | _
    · rw [lgVals_cons_skip c cs hc]
      simpa [processChanges, hc] using ih db h
    · rw [lgVals_cons_lead c cs hc]
      have hcr := create_facebook_lead_noop_doctype Env.ok now
        ((changeValue c).get "leadgen_id") ((changeValue c).get "page_id")
        ((changeValue c).get "form_id") (changeValue c) db h
      have hpub : Env.ok.publish_raises ((changeValue c).get "leadgen_id") = false := rfl
      simp only [processChanges, hc, Bool.not_true, Bool.false_eq_true, if_false,
        ite_false]
      rw [hcr]
      simp only [hpub, Bool.false_eq_true, if_false, ite_false]
      rw [ih db h]
      simp [evOf, mkEvent, lidOf]

/-- With the DocType missing, the entry loop stores nothing but still
publishes every leadgen event of every entry. -/
lemma processEntries_doctype_missing (now user : String) (es : List Json) :
    ∀ db : DB, db.lead_doctype_installed = false →
      processEntries Env.ok now user es db =
        (db, (es.flatMap fun e => lgVals (entryChanges e)).map (evOf now user),
          none) := by
  induction es with
  | nil => intro db _; simp [processEntries]
  | cons e es ih =>
    intro db h
    simp only [processEntries, process_entry]
    rw [processChanges_doctype_missing now user (entryChanges e) db h]
    simp only [ih db h]
    simp [List.flatMap_cons]

/-- C10: when the `Facebook Lead` DocType does not exist, a well-formed
page/leadgen POST is still acknowledged with 200 `success`: no record is
created, yet every leadgen change's notification event is published and
no error surfaces. -/
theorem doctype_missing_acknowledged (now user : String) (p : Json) (db : DB)
    (hobj : p.get "object" = some (Json.str "page"))
    (hdt : db.lead_doctype_installed = false) :
    handle_lead_event Env.ok now user (some p) db =
      (db, (leadgenValues p).map (evOf now user), LeadResponse.ok) := by
  have hfal := isFalsy_false_of_get p "object" _ hobj
  have hpe := processEntries_doctype_missing now user (payloadEntries p) db hdt
  simp [handle_lead_event, hfal, hobj, hpe, leadgenValues]

/-- Witness for C10 at the two-lead sample payload with the DocType absent. -/
theorem doctype_missing_acknowledged_witness :
    (samplePagePayload.get "object" = some (Json.str "page") ∧
      (⟨false, []⟩ : DB).lead_doctype_installed = false ∧
      handle_lead_event Env.ok "2025-01-01 00:00:00" "Administrator"
          (some samplePagePayload) ⟨false, []⟩ =
        (⟨false, []⟩, (leadgenValues samplePagePayload).map
          (evOf "2025-01-01 00:00:00" "Administrator"), LeadResponse.ok)) :=
  ⟨by decide, rfl,
    doctype_missing_acknowledged "2025-01-01 00:00:00" "Administrator"
      samplePagePayload ⟨false, []⟩ (by decide) rfl⟩

/-- Whatever the insert failures, a change loop whose publish calls all
succeed finishes the whole list and publishes every leadgen event. -/
lemma processChanges_publish_ok (env : Env) (now user : String) (cs : List Json) :
    ∀ db : DB, (∀ v ∈ lgVals cs, env.publish_raises (lidOf v) = false) →
      ∃ db', processChanges env now user cs db =
        (db', (lgVals cs).map (evOf now user), none) := by
  induction cs with
  | nil => intro db _; exact ⟨db, by simp [processChanges, lgVals]⟩
  | cons c cs ih =>
    intro db hpub
    rcases hc : isLeadgenChange c with _ | _
    · rw [lgVals_cons_skip c cs hc] at hpub ⊢
      obtain ⟨db', hdb'⟩ := ih db hpub
      exact ⟨db', by simpa [processChanges, hc] using hdb'⟩
    · rw [lgVals_cons_lead c cs hc] at hpub ⊢
      have hp0 : env.publish_raises ((changeValue c).get "leadgen_id") = false := by
        have := hpub _ (List.mem_cons_self _ _)
        simpa [lidOf] using this
      obtain ⟨db', hdb'⟩ := ih
        (create_facebook_lead env now ((changeValue c).get "leadgen_id")
          ((changeValue c).get "page_id") ((changeValue c).get "form_id")
          (changeValue c) db)
        (fun v hv => hpub v (List.mem_cons_of_mem _ hv))
      refine ⟨db', ?_⟩
      simp only [processChanges, hc, Bool.not_true, Bool.false_eq_true, if_false,
        ite_false]
      rw [hp0]
      simp only [Bool.false_eq_true, if_false, ite_false]
      rw [hdb']
      simp [evOf, mkEvent, lidOf]

/-- Whatever the insert failures, an entry loop whose publish calls all
succeed finishes every entry and publishes every leadgen event. -/
lemma processEntries_publish_ok (env : Env) (now user : String) (es : List Json) :
    ∀ db : DB,
      (∀ v ∈ es.flatMap fun e => lgVals (entryChanges e),
        env.publish_raises (lidOf v) = false) →
      ∃ db', processEntries env now user es db =
        (db', (es.flatMap fun e => lgVals (entryChanges e)).map (evOf now user),
          none) := by
  induction es with
  | nil => intro db _; exact ⟨db, by simp [processEntries]⟩
  | cons e es ih =>
    intro db hpub
    rw [List.flatMap_cons] at hpub ⊢
    obtain ⟨db1, h1⟩ := processChanges_publish_ok env now user (entryChanges e) db
      (fun v hv => hpub v (List.mem_append_left _ hv))
    obtain ⟨db2, h2⟩ := ih db1 (fun v hv => hpub v (List.mem_append_right _ hv))
    refine ⟨db2, ?_⟩
    simp only [processEntries, process_entry]
    rw [h1]
    simp only [h2]
    simp

/-- C6: a failure inside `create_facebook_lead` is swallowed there, so
with all publish calls succeeding the handler still processes every
leadgen change and answers 200 with one event per change, whatever the
insert failures; an exception escaping the entry/change loop instead
surfaces as a 500, and an entry that raises aborts the entries after it. -/
theorem lead_creation_failures_isolated (env : Env) (now user : String) (p : Json)
    (db : DB) (hobj : p.get "object" = some (Json.str "page")) :
    ((∀ v ∈ leadgenValues p, env.publish_raises (lidOf v) = false) →
      ∃ db', handle_lead_event env now user (some p) db =
        (db', (leadgenValues p).map (evOf now user), LeadResponse.ok)) ∧
    (∀ db1 evs m,
      processEntries env now user (payloadEntries p) db = (db1, evs, some m) →
      handle_lead_event env now user (some p) db =
        (db1, evs, LeadResponse.serverError m)) ∧
    (∀ e es db0 db1 evs m, process_entry env now user e db0 = (db1, evs, some m) →
      processEntries env now user (e :: es) db0 = (db1, evs, some m)) := by
  have hfal := isFalsy_false_of_get p "object" _ hobj
  refine ⟨?_, ?_, ?_⟩
  · intro hpub
    obtain ⟨db', h⟩ := processEntries_publish_ok env now user (payloadEntries p) db
      (by simpa [leadgenValues] using hpub)
    exact ⟨db', by simp [handle_lead_event, hfal, hobj, h, leadgenValues]⟩
  · intro db1 evs m h
    simp [handle_lead_event, hfal, hobj, h]
  · intro e es db0 db1 evs m h
    simp [processEntries, h]

/-- An environment in which every document insert raises. -/
def failingInsertEnv : Env := ⟨fun _ => true, fun _ => false⟩

/-- Witness for C6 at the sample payload with every insert failing. -/
theorem lead_creation_failures_isolated_witness :
    (samplePagePayload.get "object" = some (Json.str "page") ∧
      (((∀ v ∈ leadgenValues samplePagePayload,
          failingInsertEnv.publish_raises (lidOf v) = false) →
        ∃ db', handle_lead_event failingInsertEnv "2025-01-01 00:00:00"
            "Administrator" (some samplePagePayload) ⟨true, []⟩ =
          (db', (leadgenValues samplePagePayload).map
            (evOf "2025-01-01 00:00:00" "Administrator"), LeadResponse.ok)) ∧
      (∀ db1 evs m,
        processEntries failingInsertEnv "2025-01-01 00:00:00" "Administrator"
            (payloadEntries samplePagePayload) ⟨true, []⟩ = (db1, evs, some m) →
        handle_lead_event failingInsertEnv "2025-01-01 00:00:00" "Administrator"
            (some samplePagePayload) ⟨true, []⟩ =
          (db1, evs, LeadResponse.serverError m)) ∧
      (∀ e es db0 db1 evs m,
        process_entry failingInsertEnv "2025-01-01 00:00:00" "Administrator" e db0 =
          (db1, evs, some m) →
        processEntries failingInsertEnv "2025-01-01 00:00:00" "Administrator"
            (e :: es) db0 = (db1, evs, some m)))) :=
  ⟨by decide,
    lead_creation_failures_isolated failingInsertEnv "2025-01-01 00:00:00"
      "Administrator" samplePagePayload ⟨true, []⟩ (by decide)⟩

/-- The `Facebook Lead Ads Webhook` document fields its controller
(`facebook_lead_ads_webhook.py`) touches. -/
structure WebhookDoc where
  webhook_name : Option String
  page_id : Option String
  form_id : Option String
  enabled : Bool
  verify_token : Option String
  webhook_url : Option String
  subscription_id : Option String
  is_active : Bool
deriving DecidableEq, Repr

/-- One outbound Graph API request made by the subscription manager. -/
inductive ApiCall where
  | createSubscription (app_id : String) (callback_url verify_token : Option String)
      (fields : List String)
  | installApp (page_id : Option String) (field : String)
  | deleteSubscription (app_id graph_object : String)
deriving DecidableEq, Repr

/-- Results of the external calls the subscription manager makes during
one invocation; `Except.error` models a raised exception. -/
structure GraphEnv where
  create_subscription_result : Except String String
  install_app_result : Except String Unit
  delete_subscription_result : Except String Unit
  save_result : Except String Unit
deriving Repr

/-- Embeds `FacebookLeadAdsWebhook.before_insert`: generate the verify token
(`creqit.generate_hash(length=32)`, whose random output is the `fresh`
parameter) and derive the webhook URL from the site base URL. -/
def FacebookLeadAdsWebhook.before_insert (fresh site_url : String)
    (doc : WebhookDoc) : WebhookDoc :=
  { doc with
    verify_token := some fresh
    webhook_url := some (site_url ++
      "/api/method/creqit.meta.FacebookLeadAds.webhook.handle_webhook") }

/-- Embeds `FacebookLeadAdsWebhook.subscribe_webhook`: create the app webhook
subscription, install the app on the page, then mark the document active
with the returned subscription ID and save; any raise is caught and
re-thrown as a user-facing error. Returns the in-memory document, the
persisted document, the Graph API calls made, and the thrown error. -/
def FacebookLeadAdsWebhook.subscribe_webhook (env : GraphEnv) (settings : Settings)
    (doc stored : WebhookDoc) :
    WebhookDoc × WebhookDoc × List ApiCall × Option String :=
  match env.create_subscription_result with
  | .error e =>
      (doc, stored,
        [.createSubscription settings.app_id doc.webhook_url doc.verify_token
          ["leadgen"]],
        some ("Failed to subscribe webhook: " ++ e))
  | .ok sub_id =>
      match env.install_app_result with
      | .error e =>
          (doc, stored,
            [.createSubscription settings.app_id doc.webhook_url doc.verify_token
              ["leadgen"], .installApp doc.page_id "leadgen"],
            some ("Failed to subscribe webhook: " ++ e))
      | .ok _ =>
          let doc' := { doc with is_active := true, subscription_id := some sub_id }
          match env.save_result with
          | .error e =>
              (doc', stored,
                [.createSubscription settings.app_id doc.webhook_url doc.verify_token
                  ["leadgen"], .installApp doc.page_id "leadgen"],
                some ("Failed to subscribe webhook: " ++ e))
          | .ok _ =>
              (doc', doc',
                [.createSubscription settings.app_id doc.webhook_url doc.verify_token
                  ["leadgen"], .installApp doc.page_id "leadgen"], none)

/-- Embeds `FacebookLeadAdsWebhook.unsubscribe_webhook`: delete the app webhook
subscription, then clear the local state and save; any raise is caught and
re-thrown as a user-facing error. -/
def FacebookLeadAdsWebhook.unsubscribe_webhook (env : GraphEnv) (settings : Settings)
    (doc stored : WebhookDoc) :
    WebhookDoc × WebhookDoc × List ApiCall × Option String :=
  match env.delete_subscription_result with
  | .error e =>
      (doc, stored, [.deleteSubscription settings.app_id "page"],
        some ("Failed to unsubscribe webhook: " ++ e))
  | .ok _ =>
      let doc' := { doc with is_active := false, subscription_id := none }
      match env.save_result with
      | .error e =>
          (doc', stored, [.deleteSubscription settings.app_id "page"],
            some ("Failed to unsubscribe webhook: " ++ e))
      | .ok _ => (doc', doc', [.deleteSubscription settings.app_id "page"], none)

/-- Embeds `FacebookLeadAdsWebhook.on_update`: when the enabled flag changed
(`has_value_changed("enabled")`, with `prev_enabled` the value before the
save), subscribe or unsubscribe accordingly; otherwise do nothing. -/
def FacebookLeadAdsWebhook.on_update (env : GraphEnv) (settings : Settings)
    (prev_enabled : Bool) (doc stored : WebhookDoc) :
    WebhookDoc × WebhookDoc × List ApiCall × Option String :=
  if doc.enabled ≠ prev_enabled then
    if doc.enabled then FacebookLeadAdsWebhook.subscribe_webhook env settings doc stored
    else FacebookLeadAdsWebhook.unsubscribe_webhook env settings doc stored
  else (doc, stored, [], none)

/-- C7: if any step of `subscribe_webhook` raises, a user-facing error is
thrown and the persisted record stays unsubscribed (not active, no
subscription ID); only on success are the returned subscription ID stored
and the record marked active. -/
theorem subscribe_webhook_atomic (env : GraphEnv) (settings : Settings)
    (doc stored : WebhookDoc)
    (h_inactive : stored.is_active = false)
    (h_nosub : stored.subscription_id = none) :
    ((FacebookLeadAdsWebhook.subscribe_webhook env settings doc stored).2.2.2 ≠ none →
      (FacebookLeadAdsWebhook.subscribe_webhook env settings doc stored).2.1.is_active =
        false ∧
      (FacebookLeadAdsWebhook.subscribe_webhook env settings doc stored).2.1.subscription_id =
        none) ∧
    (((∃ e, env.create_subscription_result = .error e) ∨
        (∃ e, env.install_app_result = .error e) ∨
        (∃ e, env.save_result = .error e)) →
      (FacebookLeadAdsWebhook.subscribe_webhook env settings doc stored).2.2.2 ≠ none) ∧
    ((FacebookLeadAdsWebhook.subscribe_webhook env settings doc stored).2.2.2 = none →
      ∃ sub_id, env.create_subscription_result = .ok sub_id ∧
        (FacebookLeadAdsWebhook.subscribe_webhook env settings doc stored).2.1.is_active =
          true ∧
        (FacebookLeadAdsWebhook.subscribe_webhook env settings doc stored).2.1.subscription_id =
          some sub_id) := by
  rcases hc : env.create_subscription_result with e | sid <;>
    rcases hi : env.install_app_result with e2 | u2 <;>
      rcases hs : env.save_result with e3 | u3 <;>
        simp [FacebookLeadAdsWebhook.subscribe_webhook, hc, hi, hs, h_inactive, h_nosub]

/-- Witness for C7: the Graph subscription call raises on a stored record
that is unsubscribed. -/
theorem subscribe_webhook_atomic_witness :
    ((⟨none, none, none, true, some "tok", none, none, false⟩ : WebhookDoc).is_active =
        false ∧
      (⟨none, none, none, true, some "tok", none, none, false⟩ :
        WebhookDoc).subscription_id = none ∧
      (((FacebookLeadAdsWebhook.subscribe_webhook
            ⟨.error "boom", .ok (), .ok (), .ok ()⟩ ⟨true, "app", "sec", none, false⟩
            ⟨none, none, none, true, some "tok", none, none, false⟩
            ⟨none, none, none, true, some "tok", none, none, false⟩).2.2.2 ≠ none →
        (FacebookLeadAdsWebhook.subscribe_webhook
            ⟨.error "boom", .ok (), .ok (), .ok ()⟩ ⟨true, "app", "sec", none, false⟩
            ⟨none, none, none, true, some "tok", none, none, false⟩
            ⟨none, none, none, true, some "tok", none, none, false⟩).2.1.is_active =
          false ∧
        (FacebookLeadAdsWebhook.subscribe_webhook
            ⟨.error "boom", .ok (), .ok (), .ok ()⟩ ⟨true, "app", "sec", none, false⟩
            ⟨none, none, none, true, some "tok", none, none, false⟩
            ⟨none, none, none, true, some "tok", none, none, false⟩).2.1.subscription_id =
          none) ∧
      (((∃ e, (⟨.error "boom", .ok (), .ok (), .ok ()⟩ :
            GraphEnv).create_subscription_result = .error e) ∨
          (∃ e, (⟨.error "boom", .ok (), .ok (), .ok ()⟩ :
            GraphEnv).install_app_result = .error e) ∨
          (∃ e, (⟨.error "boom", .ok (), .ok (), .ok ()⟩ :
            GraphEnv).save_result = .error e)) →
        (FacebookLeadAdsWebhook.subscribe_webhook
            ⟨.error "boom", .ok (), .ok (), .ok ()⟩ ⟨true, "app", "sec", none, false⟩
            ⟨none, none, none, true, some "tok", none, none, false⟩
            ⟨none, none, none, true, some "tok", none, none, false⟩).2.2.2 ≠ none) ∧
      ((FacebookLeadAdsWebhook.subscribe_webhook
            ⟨.error "boom", .ok (), .ok (), .ok ()⟩ ⟨true, "app", "sec", none, false⟩
            ⟨none, none, none, true, some "tok", none, none, false⟩
            ⟨none, none, none, true, some "tok", none, none, false⟩).2.2.2 = none →
        ∃ sub_id, (⟨.error "boom", .ok (), .ok (), .ok ()⟩ :
            GraphEnv).create_subscription_result = .ok sub_id ∧
          (FacebookLeadAdsWebhook.subscribe_webhook
              ⟨.error "boom", .ok (), .ok (), .ok ()⟩ ⟨true, "app", "sec", none, false⟩
              ⟨none, none, none, true, some "tok", none, none, false⟩
              ⟨none, none, none, true, some "tok", none, none, false⟩).2.1.is_active =
            true ∧
          (FacebookLeadAdsWebhook.subscribe_webhook
              ⟨.error "boom", .ok (), .ok (), .ok ()⟩ ⟨true, "app", "sec", none, false⟩
              ⟨none, none, none, true, some "tok", none, none, false⟩
              ⟨none, none, none, true, some "tok", none, none, false⟩).2.1.subscription_id =
            some sub_id))) :=
  ⟨rfl, rfl,
    subscribe_webhook_atomic ⟨.error "boom", .ok (), .ok (), .ok ()⟩
      ⟨true, "app", "sec", none, false⟩
      ⟨none, none, none, true, some "tok", none, none, false⟩
      ⟨none, none, none, true, some "tok", none, none, false⟩ rfl rfl⟩

/-- C8: the verify token is assigned a fresh value only by the
before-insert hook; `on_update` — including a disable or a re-enable —
leaves both the in-memory and the persisted token unchanged, and a
re-enable's subscribe call reuses the stored token. -/
theorem verify_token_generated_at_insert_only (env : GraphEnv) (settings : Settings)
    (prev_enabled : Bool) (doc stored : WebhookDoc) (fresh site_url : String)
    (hsync : stored.verify_token = doc.verify_token) :
    (FacebookLeadAdsWebhook.before_insert fresh site_url doc).verify_token =
      some fresh ∧
    (FacebookLeadAdsWebhook.on_update env settings prev_enabled doc
      stored).1.verify_token = doc.verify_token ∧
    (FacebookLeadAdsWebhook.on_update env settings prev_enabled doc
      stored).2.1.verify_token = doc.verify_token ∧
    (prev_enabled = false → doc.enabled = true →
      ApiCall.createSubscription settings.app_id doc.webhook_url doc.verify_token
          ["leadgen"] ∈
        (FacebookLeadAdsWebhook.on_update env settings prev_enabled doc
          stored).2.2.1) := by
  refine ⟨rfl, ?_⟩
  rcases hd : doc.enabled with _ | _ <;> rcases hp : prev_enabled with _ | _ <;>
    rcases hc : env.create_subscription_result with e | sid <;>
      rcases hi : env.install_app_result with e2 | u2 <;>
        rcases hdl : env.delete_subscription_result with e3 | u3 <;>
          rcases hs : env.save_result with e4 | u4 <;>
            simp [FacebookLeadAdsWebhook.on_update,
              FacebookLeadAdsWebhook.subscribe_webhook,
              FacebookLeadAdsWebhook.unsubscribe_webhook, hd, hp, hc, hi, hdl, hs,
              hsync]

/-- Witness for C8: a re-enable of an existing record with a stored token
and every external call succeeding. -/
theorem verify_token_generated_at_insert_only_witness :
    ((⟨none, none, none, true, some "tok", some "url", none, false⟩ :
        WebhookDoc).verify_token =
      (⟨none, none, none, true, some "tok", some "url", none, false⟩ :
        WebhookDoc).verify_token ∧
      ((FacebookLeadAdsWebhook.before_insert "fresh32" "https://site"
          ⟨none, none, none, true, some "tok", some "url", none, false⟩).verify_token =
        some "fresh32" ∧
      (FacebookLeadAdsWebhook.on_update ⟨.ok "sub1", .ok (), .ok (), .ok ()⟩
          ⟨true, "app", "sec", none, false⟩ false
          ⟨none, none, none, true, some "tok", some "url", none, false⟩
          ⟨none, none, none, true, some "tok", some "url", none, false⟩).1.verify_token =
        (⟨none, none, none, true, some "tok", some "url", none, false⟩ :
          WebhookDoc).verify_token ∧
      (FacebookLeadAdsWebhook.on_update ⟨.ok "sub1", .ok (), .ok (), .ok ()⟩
          ⟨true, "app", "sec", none, false⟩ false
          ⟨none, none, none, true, some "tok", some "url", none, false⟩
          ⟨none, none, none, true, some "tok", some "url", none,
            false⟩).2.1.verify_token =
        (⟨none, none, none, true, some "tok", some "url", none, false⟩ :
          WebhookDoc).verify_token ∧
      (false = false →
        (⟨none, none, none, true, some "tok", some "url", none, false⟩ :
          WebhookDoc).enabled = true →
        ApiCall.createSubscription "app"
            (⟨none, none, none, true, some "tok", some "url", none, false⟩ :
              WebhookDoc).webhook_url
            (⟨none, none, none, true, some "tok", some "url", none, false⟩ :
              WebhookDoc).verify_token ["leadgen"] ∈
          (FacebookLeadAdsWebhook.on_update ⟨.ok "sub1", .ok (), .ok (), .ok ()⟩
            ⟨true, "app", "sec", none, false⟩ false
            ⟨none, none, none, true, some "tok", some "url", none, false⟩
            ⟨none, none, none, true, some "tok", some "url", none,
              false⟩).2.2.1))) :=
  ⟨rfl,
    verify_token_generated_at_insert_only ⟨.ok "sub1", .ok (), .ok (), .ok ()⟩
      ⟨true, "app", "sec", none, false⟩ false
      ⟨none, none, none, true, some "tok", some "url", none, false⟩
      ⟨none, none, none, true, some "tok", some "url", none, false⟩
      "fresh32" "https://site" rfl⟩

end FacebookLeadAds
